import Mathlib

/-!
Shallow embedding of the teamtask server: the in-memory Express handlers
(the team-shared server file) and, where the claims cite them, the
Prisma-variant handlers (the PostgreSQL server file).

Modelling conventions:
* Machine clock readings (`Date.now()`, and the ISO strings written into
  `createdAt` / `updatedAt`) are modelled as natural numbers passed in
  explicitly; the fixed-width ISO rendering of a millisecond timestamp is
  order-isomorphic to the number itself, so ordering claims are stated on
  the numbers.
* The bcrypt hash and verify primitives are opaque one-way functions per
  the specification and are passed in as explicit function parameters.
* JavaScript `||` defaulting on possibly-absent request-body fields is
  modelled by explicit truthiness helpers (`undefined`, `""` and `0` are
  falsy).
* Each Express handler becomes a pure function from its inputs and the
  current store to a response and the next store.
-/

deriving instance DecidableEq for Except

namespace TeamTask

/-- JavaScript truthiness fallback on a string: `s || d`. -/
def jsOrS (s d : String) : String := if s = "" then d else s

/-- `s.toLowerCase()`: character-wise lowering, written by structural
recursion over the character list so that concrete instances evaluate. -/
def jsToLower (s : String) : String := String.mk (s.data.map Char.toLower)

/-- JavaScript truthiness fallback on an optional string: `v || d`
(`undefined` and `""` are both falsy). -/
def jsOr (v : Option String) (d : String) : String :=
  match v with
  | none => d
  | some s => jsOrS s d

/-- JavaScript truthiness fallback on an optional number: `v || d`
(`undefined` and `0` are both falsy). -/
def jsOrNat (v : Option Nat) (d : Nat) : Nat :=
  match v with
  | none => d
  | some n => if n = 0 then d else n

/-- The identity context decoded from a verified token and attached to the
request (`req.user`); `teamName` is optional in the server's own
`AuthenticatedRequest` type. -/
structure Identity where
  id : String
  email : String
  name : String
  role : String
  teamName : Option String
deriving DecidableEq

/-- A stored user record (`User` interface of the in-memory server).
`createdAt` is the clock reading at registration. -/
structure User where
  id : String
  email : String
  password : String
  name : String
  teamName : Option String
  role : String
  createdAt : Nat
deriving DecidableEq

/-- An error response: HTTP status plus the user-facing message. -/
structure ApiError where
  status : Nat
  message : String
deriving DecidableEq

/-- 400: missing email or password. -/
def validationError : ApiError := ⟨400, "メールアドレスとパスワードは必須です"⟩

/-- 400: email already registered. -/
def duplicateEmailError : ApiError := ⟨400, "このメールアドレスは既に登録されています"⟩

/-- 401: the single login failure response, used both for an unknown email
and for a wrong password. -/
def invalidCredentialsError : ApiError :=
  ⟨401, "メールアドレスまたはパスワードが正しくありません"⟩

/-- 404: task not found (also returned when the task exists under another
team). -/
def taskNotFoundError : ApiError := ⟨404, "タスクが見つかりません"⟩

/-- The user object embedded in success responses of register and login:
exactly the fields id, email, name, role, teamName. -/
structure UserView where
  id : String
  email : String
  name : String
  role : String
  teamName : Option String
deriving DecidableEq

/-- The projection building the response user object; it reads only the
five exposed fields of the stored record. -/
def toUserView (u : User) : UserView :=
  ⟨u.id, u.email, u.name, u.role, u.teamName⟩

/-- Request body of POST /api/auth/register. -/
structure RegisterBody where
  email : String
  password : String
  name : Option String
  teamName : Option String
deriving DecidableEq

/-- The characters before the first `'@'`. -/
def takeLocal : List Char → List Char
  | [] => []
  | c :: cs => if c = '@' then [] else c :: takeLocal cs

/-- `email.split('@')[0]`: the local part used as the default display
name. -/
def emailLocalPart (e : String) : String :=
  String.mk (takeLocal e.data)

/-- The user record built by the register handler: id from `Date.now()`,
normalized email, hashed password, defaulted name and team, role `user`. -/
def registeredUser (hash : String → String) (now : Nat) (b : RegisterBody) : User :=
  { id := toString now
    email := jsToLower b.email
    password := hash b.password
    name := jsOr b.name (emailLocalPart b.email)
    teamName := some (jsOr b.teamName "デフォルトチーム")
    role := "user"
    createdAt := now }

/-- POST /api/auth/register on the in-memory user store.  Returns the
response (success user view or error) together with the resulting store.
`hash` is the opaque bcrypt primitive, `now` the `Date.now()` reading. -/
def register (hash : String → String) (now : Nat) (b : RegisterBody)
    (users : List User) : Except ApiError UserView × List User :=
  if b.email == "" || b.password == "" then
    (.error validationError, users)
  else
    match users.find? (fun u => u.email == jsToLower b.email) with
    | some _ => (.error duplicateEmailError, users)
    | none =>
        (.ok (toUserView (registeredUser hash now b)),
          users ++ [registeredUser hash now b])

/-- Request body of POST /api/auth/login. -/
structure LoginBody where
  email : String
  password : String
deriving DecidableEq

/-- POST /api/auth/login on the in-memory user store.  `verify` is the
opaque bcrypt comparison primitive (plaintext, stored hash ↦ match?).
Login never changes the store. -/
def login (verify : String → String → Bool) (b : LoginBody)
    (users : List User) : Except ApiError UserView :=
  if b.email == "" || b.password == "" then
    .error validationError
  else
    match users.find? (fun u => u.email == jsToLower b.email) with
    | none => .error invalidCredentialsError
    | some u =>
        if verify b.password u.password then .ok (toUserView u)
        else .error invalidCredentialsError

/-- A stored task record (`Task` interface of the in-memory server).
`createdAt` / `updatedAt` are clock readings, `dueDate` is kept as the
string the client sent (or the ISO rendering of the creation time). -/
structure Task where
  id : String
  title : String
  description : String
  status : String
  priority : String
  assignee : String
  dueDate : String
  teamName : String
  createdBy : String
  createdAt : Nat
  updatedAt : Nat
deriving DecidableEq

/-- The ISO rendering of a clock reading, used where the server stores
`new Date().toISOString()` into a string-typed field. -/
def isoOf (n : Nat) : String := toString n

/-- Request body of POST /api/tasks.  `teamName` / `createdBy` are listed
because a client can send them; the handler must not read them. -/
structure TaskBody where
  title : String
  description : Option String
  status : Option String
  priority : Option String
  assignee : Option String
  dueDate : Option String
  teamName : Option String
  createdBy : Option String
deriving DecidableEq

/-- POST /api/tasks: builds the task from the body with `||` defaults,
stamps `teamName` from `req.user?.teamName || 'Unknown'` and `createdBy`
from `req.user?.name || 'Unknown'`, and appends it to the store.  Returns
the created task and the next store (the handler cannot fail). -/
def createTask (now : Nat) (i : Identity) (b : TaskBody) (tasks : List Task) :
    Task × List Task :=
  let t : Task :=
    { id := toString now
      title := b.title
      description := jsOr b.description ""
      status := jsOr b.status "pending"
      priority := jsOr b.priority "medium"
      assignee := jsOr b.assignee (jsOrS i.name "Unknown")
      dueDate := jsOr b.dueDate (isoOf now)
      teamName := jsOr i.teamName "Unknown"
      createdBy := jsOrS i.name "Unknown"
      createdAt := now
      updatedAt := now }
  (t, tasks ++ [t])

/-- GET /api/tasks: `tasks.filter(task => task.teamName === req.user?.teamName)`.
No sorting is applied; stored order is returned. -/
def listTasks (i : Identity) (tasks : List Task) : List Task :=
  tasks.filter (fun t => i.teamName == some t.teamName)

/-- Request body of PUT /api/tasks/:id: the handler spreads the whole body
over the stored record, so every stored field can appear. -/
structure TaskUpdateBody where
  id : Option String
  title : Option String
  description : Option String
  status : Option String
  priority : Option String
  assignee : Option String
  dueDate : Option String
  teamName : Option String
  createdBy : Option String
  createdAt : Option Nat
  updatedAt : Option Nat
deriving DecidableEq

/-- The object spread `{...task, ...req.body}`: every field present in the
body overwrites the stored one. -/
def spreadTask (t : Task) (b : TaskUpdateBody) : Task :=
  { id := b.id.getD t.id
    title := b.title.getD t.title
    description := b.description.getD t.description
    status := b.status.getD t.status
    priority := b.priority.getD t.priority
    assignee := b.assignee.getD t.assignee
    dueDate := b.dueDate.getD t.dueDate
    teamName := b.teamName.getD t.teamName
    createdBy := b.createdBy.getD t.createdBy
    createdAt := b.createdAt.getD t.createdAt
    updatedAt := b.updatedAt.getD t.updatedAt }

/-- `findIndex` + in-place assignment: rewrite the first element matching
`p` with `f`, returning the new element and the new list, or `none` when
no element matches. -/
def updateFirst {α : Type} (p : α → Bool) (f : α → α) : List α → Option (α × List α)
  | [] => none
  | x :: xs =>
      if p x then some (f x, f x :: xs)
      else
        match updateFirst p f xs with
        | none => none
        | some (y, ys) => some (y, x :: ys)

/-- `findIndex` + `splice(index, 1)`: drop the first element matching `p`,
or `none` when no element matches. -/
def removeFirst {α : Type} (p : α → Bool) : List α → Option (List α)
  | [] => none
  | x :: xs => if p x then some xs else (removeFirst p xs).map (x :: ·)

/-- The lookup predicate of PUT/DELETE /api/tasks/:id:
`task.id === req.params.id && task.teamName === req.user?.teamName`. -/
def taskMatch (i : Identity) (tid : String) (t : Task) : Bool :=
  t.id == tid && i.teamName == some t.teamName

/-- PUT /api/tasks/:id (in-memory server): find the task by id within the
requester's team; 404 otherwise; merge the whole request body over the
record and re-stamp `updatedAt`. -/
def updateTask (now : Nat) (i : Identity) (tid : String) (b : TaskUpdateBody)
    (tasks : List Task) : Except ApiError (Task × List Task) :=
  match updateFirst (taskMatch i tid)
      (fun t => { spreadTask t b with updatedAt := now }) tasks with
  | none => .error taskNotFoundError
  | some r => .ok r

/-- DELETE /api/tasks/:id (in-memory server): find the task by id within
the requester's team; 404 otherwise; splice it out. -/
def deleteTask (i : Identity) (tid : String) (tasks : List Task) :
    Except ApiError (List Task) :=
  match removeFirst (taskMatch i tid) tasks with
  | none => .error taskNotFoundError
  | some ts => .ok ts

/-- A stored project record (`Project` interface of the in-memory server). -/
structure Project where
  id : String
  name : String
  description : String
  client : String
  status : String
  priority : String
  progress : Nat
  teamName : String
  createdBy : String
  createdAt : Nat
  updatedAt : Nat
deriving DecidableEq

/-- Request body of POST /api/projects. -/
structure ProjectBody where
  name : String
  description : Option String
  client : Option String
  status : Option String
  priority : Option String
  progress : Option Nat
  teamName : Option String
  createdBy : Option String
deriving DecidableEq

/-- POST /api/projects: same pattern as task creation (status defaults to
planning, progress to 0). -/
def createProject (now : Nat) (i : Identity) (b : ProjectBody)
    (projects : List Project) : Project × List Project :=
  let p : Project :=
    { id := toString now
      name := b.name
      description := jsOr b.description ""
      client := jsOr b.client ""
      status := jsOr b.status "planning"
      priority := jsOr b.priority "medium"
      progress := jsOrNat b.progress 0
      teamName := jsOr i.teamName "Unknown"
      createdBy := jsOrS i.name "Unknown"
      createdAt := now
      updatedAt := now }
  (p, projects ++ [p])

/-- GET /api/projects: filter by the requester's team, stored order. -/
def listProjects (i : Identity) (projects : List Project) : List Project :=
  projects.filter (fun p => i.teamName == some p.teamName)

/-- A stored lead record (`Lead` interface of the in-memory server). -/
structure Lead where
  id : String
  company : String
  contact : String
  contactEmail : String
  status : String
  value : Nat
  probability : Nat
  teamName : String
  createdBy : String
  createdAt : Nat
  updatedAt : Nat
deriving DecidableEq

/-- Request body of POST /api/leads. -/
structure LeadBody where
  company : String
  contact : String
  contactEmail : Option String
  status : Option String
  value : Option Nat
  probability : Option Nat
  teamName : Option String
  createdBy : Option String
deriving DecidableEq

/-- POST /api/leads: same pattern (status defaults to the lead stage,
value to 0, probability to 50). -/
def createLead (now : Nat) (i : Identity) (b : LeadBody) (leads : List Lead) :
    Lead × List Lead :=
  let l : Lead :=
    { id := toString now
      company := b.company
      contact := b.contact
      contactEmail := jsOr b.contactEmail ""
      status := jsOr b.status "リード"
      value := jsOrNat b.value 0
      probability := jsOrNat b.probability 50
      teamName := jsOr i.teamName "Unknown"
      createdBy := jsOrS i.name "Unknown"
      createdAt := now
      updatedAt := now }
  (l, leads ++ [l])

/-- GET /api/leads: filter by the requester's team, stored order. -/
def listLeads (i : Identity) (leads : List Lead) : List Lead :=
  leads.filter (fun l => i.teamName == some l.teamName)

/-- A task row of the Prisma-variant server: teams are not denormalized
onto the row; the owning team is reached through the `userId` relation. -/
structure PrismaTask where
  id : String
  title : String
  description : String
  status : String
  priority : String
  assignee : String
  dueDate : Option String
  userId : String
deriving DecidableEq

/-- The team that owns a Prisma task row: the team of its linked user. -/
def prismaTaskTeam (users : List User) (t : PrismaTask) : Option String :=
  (users.find? (fun u => u.id == t.userId)).bind (fun u => u.teamName)

/-- Update data of the Prisma-variant PUT /api/tasks/:id (`data: req.body`):
only the fields present are written. -/
structure PrismaTaskData where
  title : Option String
  description : Option String
  status : Option String
  priority : Option String
  assignee : Option String
  dueDate : Option String
  userId : Option String
deriving DecidableEq

/-- Applying a Prisma update payload to a task row. -/
def prismaApply (t : PrismaTask) (d : PrismaTaskData) : PrismaTask :=
  { id := t.id
    title := d.title.getD t.title
    description := d.description.getD t.description
    status := d.status.getD t.status
    priority := d.priority.getD t.priority
    assignee := d.assignee.getD t.assignee
    dueDate := d.dueDate.or t.dueDate
    userId := d.userId.getD t.userId }

/-- PUT /api/tasks/:id of the Prisma-variant server:
`prisma.task.update({ where: { id }, data: req.body })` — the record is
looked up by id only, with no team filter and no identity input at all; a
missing id makes Prisma throw, surfaced as the 500 catch branch. -/
def prismaUpdateTask (tid : String) (d : PrismaTaskData)
    (tasks : List PrismaTask) : Except ApiError (PrismaTask × List PrismaTask) :=
  match updateFirst (fun t => t.id == tid) (fun t => prismaApply t d) tasks with
  | none => .error ⟨500, "タスクの更新に失敗しました"⟩
  | some r => .ok r

/-- DELETE /api/tasks/:id of the Prisma-variant server: delete by id only,
no team filter; a missing id is the 500 catch branch. -/
def prismaDeleteTask (tid : String) (tasks : List PrismaTask) :
    Except ApiError (List PrismaTask) :=
  match removeFirst (fun t => t.id == tid) tasks with
  | none => .error ⟨500, "タスクの削除に失敗しました"⟩
  | some ts => .ok ts

/-- `true` when consecutive elements have non-increasing `createdAt`,
i.e. the list is ordered by creation time descending. -/
def sortedByCreatedDesc : List Task → Bool
  | [] => true
  | [_] => true
  | a :: b :: ts => decide (b.createdAt ≤ a.createdAt) && sortedByCreatedDesc (b :: ts)

/-! Concrete fixtures used by witnesses and counterexamples. -/

/-- A concrete stand-in for the opaque bcrypt hash. -/
def hashC : String → String := fun s => "h:" ++ s

/-- A concrete stand-in for the opaque bcrypt comparison that never
matches. -/
def verifyNever : String → String → Bool := fun _ _ => false

def iSales : Identity := ⟨"u1", "a@x.com", "Alice", "user", some "Sales"⟩

def iOps : Identity := ⟨"u2", "b@x.com", "Bob", "user", some "Ops"⟩

def iNoTeam : Identity := ⟨"u3", "c@x.com", "Carol", "user", none⟩

/-- An identity whose teamName claim is present but is the empty string —
legal for the server's optional `teamName: string` field, and falsy for
every `||` default in the handlers. -/
def iEmptyTeam : Identity := ⟨"u4", "d@x.com", "Dave", "user", some ""⟩

def iUnknownTeam : Identity := ⟨"u5", "e@x.com", "Eve", "user", some "Unknown"⟩

def bodyFollowUp : TaskBody :=
  ⟨"Follow up", none, none, none, none, none, none, none⟩

def bodySecond : TaskBody :=
  ⟨"Second task", none, none, none, none, none, none, none⟩

/-- A Sales-team task as actually produced by the create handler. -/
def taskSales1 : Task := (createTask 1 iSales bodyFollowUp []).1

/-- An update body carrying only a client-supplied `teamName`. -/
def hijackBody : TaskUpdateBody :=
  ⟨none, none, none, none, none, none, none, some "Ops", none, none, none⟩

def uSalesRow : User := ⟨"10", "a@x.com", "h", "Alice", some "Sales", "user", 0⟩

def uOpsRow : User := ⟨"20", "b@x.com", "h", "Bob", some "Ops", "user", 0⟩

/-- A Prisma task row owned (through `userId`) by the Ops user. -/
def pTaskOps : PrismaTask :=
  ⟨"42", "Ops task", "", "pending", "medium", "Bob", none, "20"⟩

/-- A Prisma update payload retitling the task. -/
def pHack : PrismaTaskData :=
  ⟨some "hacked", none, none, none, none, none, none⟩

def bA : RegisterBody := ⟨"a@x.com", "pw123456", none, some "Sales"⟩

def bB : RegisterBody := ⟨"b@x.com", "pw223456", none, some "Sales"⟩

/-- The same email as `bA` up to letter case. -/
def bDup : RegisterBody := ⟨"A@x.com", "pw2", none, none⟩

def lbA : LoginBody := ⟨"a@x.com", "wrongpw"⟩

/-- The id field of a register/login response, or `""` on error. -/
def respId : Except ApiError UserView → String
  | .ok v => v.id
  | .error _ => ""

/-! Helper lemmas shared by several claim theorems. -/

/-- Inversion of a successful register: validation passed, no duplicate was
found, the new user was appended, and the response view is its projection. -/
theorem register_ok_inv {hash : String → String} {now : Nat} {b : RegisterBody}
    {s : List User} {v : UserView}
    (h : (register hash now b s).1 = .ok v) :
    (b.email == "" || b.password == "") = false ∧
    s.find? (fun u => u.email == jsToLower b.email) = none ∧
    (register hash now b s).2 = s ++ [registeredUser hash now b] ∧
    v = toUserView (registeredUser hash now b) := by
  unfold register at h
  split at h
  next hcond => simp at h
  next hcond =>
    split at h
    next u hfind => simp at h
    next hfind =>
      have hv : v = toUserView (registeredUser hash now b) := by
        simpa using h.symm
      refine ⟨by simpa using hcond, hfind, ?_, hv⟩
      unfold register
      rw [if_neg hcond, hfind]

/-- A task fresh out of the create handler carries the creator's (nonempty)
team name. -/
theorem createTask_teamName {now : Nat} {i : Identity} {b : TaskBody}
    {ts : List Task} {T : String} (hT : i.teamName = some T) (hne : T ≠ "") :
    (createTask now i b ts).1.teamName = T := by
  simp [createTask, hT, jsOr, jsOrS, hne]

/-- A project fresh out of the create handler carries the creator's
(nonempty) team name. -/
theorem createProject_teamName {now : Nat} {i : Identity} {b : ProjectBody}
    {ps : List Project} {T : String} (hT : i.teamName = some T) (hne : T ≠ "") :
    (createProject now i b ps).1.teamName = T := by
  simp [createProject, hT, jsOr, jsOrS, hne]

/-- A lead fresh out of the create handler carries the creator's (nonempty)
team name. -/
theorem createLead_teamName {now : Nat} {i : Identity} {b : LeadBody}
    {ls : List Lead} {T : String} (hT : i.teamName = some T) (hne : T ≠ "") :
    (createLead now i b ls).1.teamName = T := by
  simp [createLead, hT, jsOr, jsOrS, hne]

/-- C1 (counterexample): the claim fails for the team names T1 = `""` and
T2 = `"Unknown"`.  An identity whose teamName claim is the empty string is
an identity with a team name, yet a task it creates is stamped
`teamName: 'Unknown'` by the `req.user?.teamName || 'Unknown'` default and
therefore appears in the list result of an identity whose teamName is
`"Unknown"` — two distinct team names. -/
theorem c1_team_isolation_counterexample :
    iEmptyTeam.teamName = some "" ∧
    iUnknownTeam.teamName = some "Unknown" ∧
    ("" : String) ≠ "Unknown" ∧
    (createTask 5 iEmptyTeam bodyFollowUp []).1 ∈
      listTasks iUnknownTeam (createTask 5 iEmptyTeam bodyFollowUp []).2 := by
  decide

/-- C1 (amended): reads are exactly team filtered — a resource appears in
`list(I)` only if its teamName equals I's — and for a creator whose team
name is nonempty, a freshly created Task/Project/Lead never appears in the
list result of an identity with a different team name.  (With an empty
team name the create default retags the record `'Unknown'`, which is the
counterexample.) -/
theorem c1_team_isolation_amended :
    (∀ (i : Identity) (T : String) (ts : List Task), i.teamName = some T →
        ∀ t ∈ listTasks i ts, t.teamName = T) ∧
    (∀ (i : Identity) (T : String) (ps : List Project), i.teamName = some T →
        ∀ p ∈ listProjects i ps, p.teamName = T) ∧
    (∀ (i : Identity) (T : String) (ls : List Lead), i.teamName = some T →
        ∀ l ∈ listLeads i ls, l.teamName = T) ∧
    (∀ (i1 i2 : Identity) (T1 T2 : String) (b : TaskBody) (ts : List Task)
        (now : Nat), i1.teamName = some T1 → i2.teamName = some T2 →
        T1 ≠ "" → T1 ≠ T2 →
        (createTask now i1 b ts).1 ∉ listTasks i2 (createTask now i1 b ts).2) ∧
    (∀ (i1 i2 : Identity) (T1 T2 : String) (b : ProjectBody) (ps : List Project)
        (now : Nat), i1.teamName = some T1 → i2.teamName = some T2 →
        T1 ≠ "" → T1 ≠ T2 →
        (createProject now i1 b ps).1 ∉
          listProjects i2 (createProject now i1 b ps).2) ∧
    (∀ (i1 i2 : Identity) (T1 T2 : String) (b : LeadBody) (ls : List Lead)
        (now : Nat), i1.teamName = some T1 → i2.teamName = some T2 →
        T1 ≠ "" → T1 ≠ T2 →
        (createLead now i1 b ls).1 ∉ listLeads i2 (createLead now i1 b ls).2) := by
  refine ⟨?_, ?_, ?_, ?_, ?_, ?_⟩
  · intro i T ts hT t ht
    have h := (List.mem_filter.1 ht).2
    rw [hT] at h
    exact (Option.some_inj.1 (beq_iff_eq.1 h)).symm
  · intro i T ps hT p hp
    have h := (List.mem_filter.1 hp).2
    rw [hT] at h
    exact (Option.some_inj.1 (beq_iff_eq.1 h)).symm
  · intro i T ls hT l hl
    have h := (List.mem_filter.1 hl).2
    rw [hT] at h
    exact (Option.some_inj.1 (beq_iff_eq.1 h)).symm
  · intro i1 i2 T1 T2 b ts now h1 h2 hne hTT hmem
    have h := (List.mem_filter.1 hmem).2
    rw [h2, createTask_teamName h1 hne] at h
    exact hTT (Option.some_inj.1 (beq_iff_eq.1 h)).symm
  · intro i1 i2 T1 T2 b ps now h1 h2 hne hTT hmem
    have h := (List.mem_filter.1 hmem).2
    rw [h2, createProject_teamName h1 hne] at h
    exact hTT (Option.some_inj.1 (beq_iff_eq.1 h)).symm
  · intro i1 i2 T1 T2 b ls now h1 h2 hne hTT hmem
    have h := (List.mem_filter.1 hmem).2
    rw [h2, createLead_teamName h1 hne] at h
    exact hTT (Option.some_inj.1 (beq_iff_eq.1 h)).symm

/-- C1 (witness): the amended isolation applied to a concrete Sales/Ops
pair. -/
theorem c1_team_isolation_amended_witness :
    (∀ t ∈ listTasks iSales [taskSales1], t.teamName = "Sales") ∧
    (createTask 3 iSales bodyFollowUp []).1 ∉
      listTasks iOps (createTask 3 iSales bodyFollowUp []).2 :=
  ⟨c1_team_isolation_amended.1 iSales "Sales" [taskSales1] rfl,
    c1_team_isolation_amended.2.2.2.1 iSales iOps "Sales" "Ops" bodyFollowUp [] 3
      rfl rfl (by decide) (by decide)⟩

/-- C2 (code bug): in the Prisma-variant server, PUT /api/tasks/:id looks
the record up by id only — the handler never consults the requester's team
at all.  Evaluated at the failing input: the store holds one task owned,
through its `userId`, by the Ops user; a request for that id (made by a
Sales-team requester — the handler takes no identity input, which is the
bug) succeeds with 200 and rewrites the record, instead of failing with
the NotFound that the claim requires. -/
theorem c2_prisma_update_unscoped :
    prismaTaskTeam [uSalesRow, uOpsRow] pTaskOps = some "Ops" ∧
    uSalesRow.teamName = some "Sales" ∧
    ("Sales" : String) ≠ "Ops" ∧
    (prismaUpdateTask "42" pHack [pTaskOps]).toOption =
      some (prismaApply pTaskOps pHack, [prismaApply pTaskOps pHack]) ∧
    (prismaApply pTaskOps pHack).title = "hacked" := by
  decide

/-- C3 (code bug): PUT /api/tasks/:id of the in-memory server merges the
whole request body over the stored record (`{...task, ...req.body}`), so a
client-supplied `teamName` reassigns the record's team.  Evaluated at the
failing input: a Sales task updated by a Sales identity with the body
`{teamName: "Ops"}` ends up with `teamName = "Ops"`, although the claim
says the team name at creation is kept regardless of the update body. -/
theorem c3_update_overwrites_team :
    taskSales1.teamName = "Sales" ∧
    iSales.teamName = some "Sales" ∧
    ((updateTask 9 iSales "1" hijackBody [taskSales1]).toOption.map
        (fun r => r.1.teamName)) = some "Ops" := by
  decide

/-- C4 (counterexample): a create by an identity with no team is not
rejected — POST /api/tasks falls back to `teamName || 'Unknown'`, succeeds,
and appends a record tagged `"Unknown"` to the store. -/
theorem c4_no_team_counterexample :
    iNoTeam.teamName = none ∧
    (createTask 7 iNoTeam bodyFollowUp []).2 =
      [(createTask 7 iNoTeam bodyFollowUp []).1] ∧
    (createTask 7 iNoTeam bodyFollowUp []).1.teamName = "Unknown" := by
  decide

/-- C4 (amended): for an identity with no team, every list endpoint
returns the empty sequence (not an error), and every create endpoint —
rather than rejecting with NoTeam — succeeds, appends a record to the
store, and stamps it with the sentinel team `"Unknown"`. -/
theorem c4_no_team_amended :
    ∀ i : Identity, i.teamName = none →
      (∀ ts, listTasks i ts = []) ∧
      (∀ ps, listProjects i ps = []) ∧
      (∀ ls, listLeads i ls = []) ∧
      (∀ now b ts, (createTask now i b ts).2 =
          ts ++ [(createTask now i b ts).1] ∧
          (createTask now i b ts).1.teamName = "Unknown") ∧
      (∀ now b ps, (createProject now i b ps).2 =
          ps ++ [(createProject now i b ps).1] ∧
          (createProject now i b ps).1.teamName = "Unknown") ∧
      (∀ now b ls, (createLead now i b ls).2 =
          ls ++ [(createLead now i b ls).1] ∧
          (createLead now i b ls).1.teamName = "Unknown") := by
  intro i h
  refine ⟨?_, ?_, ?_, ?_, ?_, ?_⟩
  · intro ts
    refine List.filter_eq_nil_iff.2 ?_
    intro t _
    simp [h]
  · intro ps
    refine List.filter_eq_nil_iff.2 ?_
    intro p _
    simp [h]
  · intro ls
    refine List.filter_eq_nil_iff.2 ?_
    intro l _
    simp [h]
  · intro now b ts
    exact ⟨rfl, by simp [createTask, h, jsOr]⟩
  · intro now b ps
    exact ⟨rfl, by simp [createProject, h, jsOr]⟩
  · intro now b ls
    exact ⟨rfl, by simp [createLead, h, jsOr]⟩

/-- C4 (witness): the amended claim at the concrete team-less identity. -/
theorem c4_no_team_amended_witness :
    listTasks iNoTeam [taskSales1] = [] ∧
    (createTask 7 iNoTeam bodyFollowUp []).1.teamName = "Unknown" :=
  ⟨(c4_no_team_amended iNoTeam rfl).1 [taskSales1],
    ((c4_no_team_amended iNoTeam rfl).2.2.2.1 7 bodyFollowUp []).2⟩

/-- C5 (counterexample): the in-memory GET /api/tasks applies no ordering.
Two tasks created for the Sales team at clock readings 1 and 2 are listed
in insertion order — creation time ascending — so the list is not ordered
by creation time descending. -/
theorem c5_list_order_counterexample :
    (listTasks iSales (createTask 2 iSales bodySecond
        (createTask 1 iSales bodyFollowUp []).2).2).length = 2 ∧
    sortedByCreatedDesc (listTasks iSales (createTask 2 iSales bodySecond
        (createTask 1 iSales bodyFollowUp []).2).2) = false := by
  decide

/-- C5 (amended): for an identity with a team name, each list endpoint of
the in-memory server returns exactly the records whose teamName equals the
identity's — but in stored (insertion) order, not sorted by creation time
descending; only the Prisma-variant queries order by `createdAt` desc. -/
theorem c5_list_exact_unsorted_amended :
    ∀ (i : Identity) (T : String), i.teamName = some T →
      (∀ ts : List Task,
          (∀ t, t ∈ listTasks i ts ↔ t ∈ ts ∧ t.teamName = T) ∧
          (listTasks i ts).Sublist ts) ∧
      (∀ ps : List Project,
          (∀ p, p ∈ listProjects i ps ↔ p ∈ ps ∧ p.teamName = T) ∧
          (listProjects i ps).Sublist ps) ∧
      (∀ ls : List Lead,
          (∀ l, l ∈ listLeads i ls ↔ l ∈ ls ∧ l.teamName = T) ∧
          (listLeads i ls).Sublist ls) := by
  intro i T hT
  refine ⟨fun ts => ⟨fun t => ?_, List.filter_sublist ts⟩,
    fun ps => ⟨fun p => ?_, List.filter_sublist ps⟩,
    fun ls => ⟨fun l => ?_, List.filter_sublist ls⟩⟩
  · rw [listTasks, List.mem_filter, hT]
    simp only [beq_iff_eq, Option.some.injEq]
    exact and_congr_right fun _ => eq_comm
  · rw [listProjects, List.mem_filter, hT]
    simp only [beq_iff_eq, Option.some.injEq]
    exact and_congr_right fun _ => eq_comm
  · rw [listLeads, List.mem_filter, hT]
    simp only [beq_iff_eq, Option.some.injEq]
    exact and_congr_right fun _ => eq_comm

/-- C5 (witness): the amended exactness at a concrete store. -/
theorem c5_list_exact_unsorted_amended_witness :
    (taskSales1 ∈ listTasks iSales [taskSales1] ↔
      taskSales1 ∈ [taskSales1] ∧ taskSales1.teamName = "Sales") ∧
    (listTasks iSales [taskSales1]).Sublist [taskSales1] :=
  ⟨((c5_list_exact_unsorted_amended iSales "Sales" rfl).1 [taskSales1]).1 taskSales1,
    ((c5_list_exact_unsorted_amended iSales "Sales" rfl).1 [taskSales1]).2⟩

/-- C6 (confirmed): after a successful register with email E, a second
register whose (well-formed) credentials carry an email with the same
lowercase normalization is rejected with DuplicateEmail and leaves the
user store exactly as it was. -/
theorem c6_duplicate_email :
    ∀ (hash : String → String) (now1 now2 : Nat) (b1 b2 : RegisterBody)
      (s : List User) (v1 : UserView),
      (register hash now1 b1 s).1 = .ok v1 →
      jsToLower b2.email = jsToLower b1.email →
      b2.email ≠ "" → b2.password ≠ "" →
      (register hash now2 b2 (register hash now1 b1 s).2).1 =
        .error duplicateEmailError ∧
      (register hash now2 b2 (register hash now1 b1 s).2).2 =
        (register hash now1 b1 s).2 := by
  intro hash now1 now2 b1 b2 s v1 h1 hemail he hp
  obtain ⟨hcond1, hfind1, hstore, hv⟩ := register_ok_inv h1
  have hcond2 : ¬((b2.email == "" || b2.password == "") = true) := by
    simp [he, hp]
  have hpred : (fun u : User => u.email == jsToLower b2.email) =
      (fun u : User => u.email == jsToLower b1.email) := by
    funext u
    rw [hemail]
  have hfind2 : (s ++ [registeredUser hash now1 b1]).find?
      (fun u => u.email == jsToLower b2.email) =
      some (registeredUser hash now1 b1) := by
    rw [hpred, List.find?_append, hfind1]
    simp [registeredUser]
  rw [hstore]
  constructor
  · unfold register
    rw [if_neg hcond2, hfind2]
  · unfold register
    rw [if_neg hcond2, hfind2]

/-- C6 (witness): registering `"a@x.com"` and then `"A@x.com"` — the
second attempt fails with DuplicateEmail and the store keeps exactly the
first user. -/
theorem c6_duplicate_email_witness :
    (register hashC 2000 bDup (register hashC 1000 bA []).2).1 =
      .error duplicateEmailError ∧
    (register hashC 2000 bDup (register hashC 1000 bA []).2).2 =
      (register hashC 1000 bA []).2 :=
  c6_duplicate_email hashC 1000 2000 bA bDup []
    ⟨"1000", "a@x.com", "a", "user", some "Sales"⟩ rfl rfl
    (by decide) (by decide)

/-- C7 (confirmed): login with an email matching no stored user and login
with a stored user whose password does not verify fail with the very same
error value — status 401 and one shared message — so the two cases are
indistinguishable to the client. -/
theorem c7_login_uniform_error :
    ∀ (verify : String → String → Bool) (b : LoginBody) (us : List User),
      b.email ≠ "" → b.password ≠ "" →
      (us.find? (fun u => u.email == jsToLower b.email) = none →
          login verify b us = .error invalidCredentialsError) ∧
      (∀ u, us.find? (fun u => u.email == jsToLower b.email) = some u →
          verify b.password u.password = false →
          login verify b us = .error invalidCredentialsError) ∧
      invalidCredentialsError.status = 401 := by
  intro verify b us he hp
  have hcond : ¬((b.email == "" || b.password == "") = true) := by
    simp [he, hp]
  refine ⟨?_, ?_, rfl⟩
  · intro hfind
    unfold login
    rw [if_neg hcond, hfind]
  · intro u hfind hverify
    unfold login
    rw [if_neg hcond, hfind]
    simp [hverify]

/-- C7 (witness): the shared error at a concrete store — an unregistered
email against the empty store, and a wrong password against the store
produced by a successful registration. -/
theorem c7_login_uniform_error_witness :
    login verifyNever lbA [] = .error invalidCredentialsError ∧
    login verifyNever lbA (register hashC 1000 bA []).2 =
      .error invalidCredentialsError :=
  ⟨(c7_login_uniform_error verifyNever lbA [] (by decide) (by decide)).1 rfl,
    (c7_login_uniform_error verifyNever lbA (register hashC 1000 bA []).2
        (by decide) (by decide)).2.1
      ⟨"1000", "a@x.com", "h:pw123456", "a", some "Sales", "user", 1000⟩
      (by decide) rfl⟩

/-- C8 (counterexample): the round trip fails for an identity whose
teamName is present but empty.  Its create is retagged `'Unknown'` by the
`|| 'Unknown'` default while its list filters on the empty team name, so
the list result right after the create is empty and contains no record
matching the supplied fields. -/
theorem c8_roundtrip_counterexample :
    iEmptyTeam.teamName = some "" ∧
    listTasks iEmptyTeam (createTask 11 iEmptyTeam bodyFollowUp []).2 = [] := by
  decide

/-- C8 (amended): for an identity with a nonempty team name and a task
body whose supplied optional fields are non-empty (so that the `||`
defaults do not replace them), the list result right after the create
contains a record agreeing with every supplied entity field, up to the
server-assigned id, timestamps, teamName and createdBy. -/
theorem c8_roundtrip_amended :
    ∀ (i : Identity) (T : String) (b : TaskBody) (ts : List Task) (now : Nat),
      i.teamName = some T → T ≠ "" →
      (∀ v, b.status = some v → v ≠ "") →
      (∀ v, b.priority = some v → v ≠ "") →
      (∀ v, b.assignee = some v → v ≠ "") →
      (∀ v, b.dueDate = some v → v ≠ "") →
      ∃ t ∈ listTasks i (createTask now i b ts).2,
        t.title = b.title ∧
        (∀ v, b.description = some v → t.description = v) ∧
        (∀ v, b.status = some v → t.status = v) ∧
        (∀ v, b.priority = some v → t.priority = v) ∧
        (∀ v, b.assignee = some v → t.assignee = v) ∧
        (∀ v, b.dueDate = some v → t.dueDate = v) := by
  intro i T b ts now hT hTne hst hpr has hdd
  refine ⟨(createTask now i b ts).1, ?_, ?_, ?_, ?_, ?_, ?_, ?_⟩
  · rw [listTasks, List.mem_filter]
    refine ⟨?_, ?_⟩
    · show (createTask now i b ts).1 ∈ ts ++ [(createTask now i b ts).1]
      simp
    · rw [hT, createTask_teamName hT hTne]
      exact beq_self_eq_true (some T)
  · rfl
  · intro v hv
    simp only [createTask, jsOr, jsOrS, hv]
    split
    next h => exact h.symm
    next h => rfl
  · intro v hv
    simp [createTask, jsOr, jsOrS, hv, hst v hv]
  · intro v hv
    simp [createTask, jsOr, jsOrS, hv, hpr v hv]
  · intro v hv
    simp [createTask, jsOr, jsOrS, hv, has v hv]
  · intro v hv
    simp [createTask, jsOr, jsOrS, hv, hdd v hv]

/-- C8 (witness): the amended round trip at a concrete Sales create. -/
theorem c8_roundtrip_amended_witness :
    ∃ t ∈ listTasks iSales (createTask 21 iSales bodyFollowUp []).2,
      t.title = bodyFollowUp.title ∧
      (∀ v, bodyFollowUp.description = some v → t.description = v) ∧
      (∀ v, bodyFollowUp.status = some v → t.status = v) ∧
      (∀ v, bodyFollowUp.priority = some v → t.priority = v) ∧
      (∀ v, bodyFollowUp.assignee = some v → t.assignee = v) ∧
      (∀ v, bodyFollowUp.dueDate = some v → t.dueDate = v) :=
  c8_roundtrip_amended iSales "Sales" bodyFollowUp [] 21 rfl (by decide)
    (fun v hv => by simp [bodyFollowUp] at hv)
    (fun v hv => by simp [bodyFollowUp] at hv)
    (fun v hv => by simp [bodyFollowUp] at hv)
    (fun v hv => by simp [bodyFollowUp] at hv)

/-- C9 (code bug): the register handler assigns `id: Date.now().toString()`.
Evaluated at the failing input — two registrations with distinct emails at
the same clock reading 1000 — both succeed and both users receive the id
`"1000"`, although the claim (and the spec's data model) requires pairwise
distinct user ids. -/
theorem c9_user_id_collision :
    ((register hashC 1000 bA []).1).isOk = true ∧
    ((register hashC 1000 bB (register hashC 1000 bA []).2).1).isOk = true ∧
    bA.email ≠ bB.email ∧
    respId (register hashC 1000 bA []).1 = "1000" ∧
    respId (register hashC 1000 bB (register hashC 1000 bA []).2).1 = "1000" := by
  decide

/-- C10 (confirmed): the register response is the same for every hash
function, so it cannot contain the stored hash (nor the plaintext it was
derived from); the response user object is the `toUserView` projection of
the stored record, a projection reading exactly the fields id, email,
name, role, teamName and invariant under any change of the stored
password field; and a successful login responds with that same projection
of a stored user. -/
theorem c10_response_hides_password :
    (∀ (h1 h2 : String → String) (now : Nat) (b : RegisterBody)
        (us : List User), (register h1 now b us).1 = (register h2 now b us).1) ∧
    (∀ (u : User) (pw : String),
        toUserView { u with password := pw } = toUserView u) ∧
    (∀ (hash : String → String) (now : Nat) (b : RegisterBody)
        (us : List User) (v : UserView), (register hash now b us).1 = .ok v →
        (register hash now b us).2 = us ++ [registeredUser hash now b] ∧
        v = toUserView (registeredUser hash now b)) ∧
    (∀ (verify : String → String → Bool) (b : LoginBody) (us : List User)
        (v : UserView), login verify b us = .ok v →
        ∃ u ∈ us, v = toUserView u) := by
  refine ⟨?_, ?_, ?_, ?_⟩
  · intro h1 h2 now b us
    by_cases hc : (b.email == "" || b.password == "") = true
    · simp only [register, if_pos hc]
    · simp only [register, if_neg hc]
      cases hfind : us.find? (fun u => u.email == jsToLower b.email) with
      | some u => rfl
      | none => rfl
  · intro u pw
    rfl
  · intro hash now b us v h
    obtain ⟨_, _, hstore, hv⟩ := register_ok_inv h
    exact ⟨hstore, hv⟩
  · intro verify b us v h
    unfold login at h
    split at h
    · simp at h
    · split at h
      next hfind => simp at h
      next u hfind =>
        split at h
        · exact ⟨u, List.mem_of_find?_eq_some hfind, by simpa using h.symm⟩
        · simp at h

/-- C10 (witness): the projection facts at a concrete successful
registration. -/
theorem c10_response_hides_password_witness :
    (register hashC 1000 bA []).2 = [] ++ [registeredUser hashC 1000 bA] ∧
    (⟨"1000", "a@x.com", "a", "user", some "Sales"⟩ : UserView) =
      toUserView (registeredUser hashC 1000 bA) :=
  c10_response_hides_password.2.2.1 hashC 1000 bA []
    ⟨"1000", "a@x.com", "a", "user", some "Sales"⟩ (by decide)

end TeamTask
